import Mathlib

/-!
Verification development for the customer-portal repository.

The repository's client code (frontend/src/services/api.ts,
frontend/src/components/CreateCase.tsx, frontend/src/components/Documents.tsx,
frontend/src/types/api.ts) is embedded shallowly below: localStorage is a
record of the two keys the client touches, a fetch round trip is an explicit
`Response` value passed to the function under scrutiny, and a thrown
`ApiError` is the `Except.error` case of the result.  Side effects the claims
do not mention (CustomEvent dispatch, window.location navigation) are not
modelled.

The backend synchronization layer (Outbound Sync Queue, Cache Store, Inbound
Reconciler) exists in this repository only as architecture documentation; the
definitions for it further below are modelled from the specification and are
marked as such.
-/

namespace CustomerPortal

/-- Embeds `ApiError` from api.ts: an Error subclass carrying the HTTP
status. -/
structure ApiError where
  message : String
  status : Nat
deriving DecidableEq

/-- The stored value under the localStorage key `auth_user`, as `getUserId`
reads it: `JSON.parse` may fail (`malformed`), and a parsed object may or may
not carry a `user_id` field. -/
inductive StoredUser
  | malformed
  | parsed (user_id : Option String)
deriving DecidableEq

/-- The slice of localStorage the api.ts client reads and writes: the keys
`auth_token` (TOKEN_KEY) and `auth_user`. -/
structure Storage where
  auth_token : Option String
  auth_user : Option StoredUser
deriving DecidableEq

/-- Embeds `getAuthToken`: `localStorage.getItem(TOKEN_KEY)`. -/
def getAuthToken (s : Storage) : Option String :=
  s.auth_token

/-- Embeds `getUserId`: parse `auth_user` and return `user.user_id || null`
(an empty-string `user_id` is falsy, hence `null`); a parse failure returns
`null`. -/
def getUserId (s : Storage) : Option String :=
  match s.auth_user with
  | none => none
  | some StoredUser.malformed => none
  | some (StoredUser.parsed uid) =>
      match uid with
      | none => none
      | some u => if u = "" then none else some u

/-- The effect of `localStorage.removeItem(TOKEN_KEY)` followed by
`localStorage.removeItem('auth_user')`. -/
def clearAuth (_s : Storage) : Storage :=
  { auth_token := none, auth_user := none }

/-- The error body `errorData` of a failed response, as `handleResponse`
reads it: `await response.json()` yields an object whose `detail` field may
be absent. -/
structure ErrBody where
  detail : Option String
deriving DecidableEq

instance {e a : Type} [DecidableEq e] [DecidableEq a] : DecidableEq (Except e a) :=
  fun x y =>
    match x, y with
    | Except.ok u, Except.ok v =>
        if h : u = v then isTrue (by rw [h]) else isFalse (by simp [h])
    | Except.error u, Except.error v =>
        if h : u = v then isTrue (by rw [h]) else isFalse (by simp [h])
    | Except.ok _, Except.error _ => isFalse (by simp)
    | Except.error _, Except.ok _ => isFalse (by simp)

/-- An HTTP response as the client observes one: `ok`, `status`,
`statusText`, the JSON body parsed as an error object (`Except.error ()` is a
rejected `response.json()` call, caught in handleResponse), and the JSON body
parsed as the success type `T`. -/
structure Response (T : Type) where
  ok : Bool
  status : Nat
  statusText : String
  errJson : Except Unit ErrBody
  body : T
deriving DecidableEq

/-- The message of the thrown ApiError in `handleResponse`:
`errorData.detail || 'API request failed'`, where `errorData` is
`await response.json().catch(() => ({ detail: response.statusText }))`
(an absent or empty-string `detail` is falsy). -/
def errorMessage (statusText : String) (errJson : Except Unit ErrBody) : String :=
  let detail : Option String :=
    match errJson with
    | Except.ok b => b.detail
    | Except.error _ => some statusText
  match detail with
  | some d => if d = "" then "API request failed" else d
  | none => "API request failed"

/-- Embeds `handleResponse` from api.ts: on a non-ok response, first clear
the stored credentials when the status is 401, then throw an `ApiError`
with `errorData.detail || 'API request failed'` and the response's status;
on an ok response return the parsed body and leave storage untouched. -/
def handleResponse {T : Type} (resp : Response T) (s : Storage) :
    Storage × Except ApiError T :=
  if resp.ok = false then
    let s' := if resp.status = 401 then clearAuth s else s
    (s', Except.error
      { message := errorMessage resp.statusText resp.errJson
        status := resp.status })
  else
    (s, Except.ok resp.body)

/-- The headers record built by `createHeaders`. -/
structure Headers where
  contentType : Option String
  authorization : Option String
deriving DecidableEq

/-- The literal `'application/json'` (the default `contentType` argument of
`createHeaders`). -/
def jsonContentType : String :=
  "application/json"

/-- The literal `'multipart/form-data'`. -/
def multipartContentType : String :=
  "multipart/form-data"

/-- Embeds `createHeaders`: Content-Type is set unless the request is
multipart, and an Authorization bearer header is added when `includeAuth`
and a token is stored. -/
def createHeaders (s : Storage) (includeAuth : Bool) (contentType : String) : Headers :=
  { contentType :=
      if contentType = multipartContentType then none else some contentType
    authorization :=
      if includeAuth then
        match getAuthToken s with
        | some token => some ("Bearer " ++ token)
        | none => none
      else none }

/-- The fallback `API_BASE_URL` of api.ts (`import.meta.env.VITE_API_URL`
is not modelled). -/
def apiBaseUrl : String :=
  "http://localhost:8000"

/-- One fetch call as the embedding records it. -/
structure HttpRequest where
  method : String
  url : String
  headers : Headers
deriving DecidableEq

/-- The truthiness coercion JavaScript applies in
`const userId = customerId || getUserId(); if (!userId) ...`:
the resolved user id when it is truthy, `none` otherwise. -/
def resolveUserId (customerId : Option String) (s : Storage) : Option String :=
  let orElse : Option String :=
    match customerId with
    | some c => if c = "" then getUserId s else some c
    | none => getUserId s
  match orElse with
  | none => none
  | some u => if u = "" then none else some u

/-- Embeds the `Document` interface of types/api.ts (`created_date` is
optional). -/
structure Document where
  document_id : String
  customer_id : String
  name : String
  type : String
  download_url : String
  created_date : Option String
deriving DecidableEq

/-- Embeds `DocumentListResponse` of types/api.ts. -/
structure DocumentListResponse where
  documents : List Document
deriving DecidableEq

/-- Embeds the `Case` interface of types/api.ts. -/
structure Case where
  case_id : String
  customer_id : String
  subject : String
  description : Option String
  type : Option String
  status : String
  created_date : String
deriving DecidableEq

/-- Embeds `CaseListResponse` of types/api.ts. -/
structure CaseListResponse where
  cases : List Case
deriving DecidableEq

/-- Embeds `CaseCreateRequest` of types/api.ts: only `subject` and an
optional `description` — the write request carries no idempotency key. -/
structure CaseCreateRequest where
  subject : String
  description : Option String
deriving DecidableEq

/-- Embeds `CaseCreateResponse` of types/api.ts. -/
structure CaseCreateResponse where
  case_id : String
  message : String
  status : String
deriving DecidableEq

/-- The file argument of `api.uploadDocument`, reduced to the fields the
client reads. -/
structure UploadFile where
  name : String
  type : String
deriving DecidableEq

/-- The auth-failure branch repeated verbatim in each api method: remove the
stored token and user, then throw `ApiError('User not authenticated', 401)`;
no fetch is performed. -/
def authFailure (T : Type) (s : Storage) :
    Storage × List HttpRequest × Except ApiError T :=
  (clearAuth s, [], Except.error { message := "User not authenticated", status := 401 })

/-- Embeds `api.getDocuments`: resolve the user id (argument or stored),
bail out with the 401 ApiError when it is falsy, otherwise GET
`/customer/{userId}/documents` and hand the response to `handleResponse`. -/
def getDocuments (customerId : Option String) (s : Storage)
    (resp : Response DocumentListResponse) :
    Storage × List HttpRequest × Except ApiError DocumentListResponse :=
  match resolveUserId customerId s with
  | none => authFailure DocumentListResponse s
  | some userId =>
      let req : HttpRequest :=
        { method := "GET"
          url := apiBaseUrl ++ "/customer/" ++ userId ++ "/documents"
          headers := createHeaders s true jsonContentType }
      let out := handleResponse resp s
      (out.1, [req], out.2)

/-- Embeds `api.getCases`: as `getDocuments`, against
`/customer/{userId}/cases`. -/
def getCases (customerId : Option String) (s : Storage)
    (resp : Response CaseListResponse) :
    Storage × List HttpRequest × Except ApiError CaseListResponse :=
  match resolveUserId customerId s with
  | none => authFailure CaseListResponse s
  | some userId =>
      let req : HttpRequest :=
        { method := "GET"
          url := apiBaseUrl ++ "/customer/" ++ userId ++ "/cases"
          headers := createHeaders s true jsonContentType }
      let out := handleResponse resp s
      (out.1, [req], out.2)

/-- Embeds `api.createCase`: resolve the user id, bail out with the 401
ApiError when it is falsy, otherwise POST the case data to
`/customer/{userId}/cases` and hand the response to `handleResponse`.  The
call completes only after the backend round trip; there is no cache write
and no queue. -/
def createCase (_caseData : CaseCreateRequest) (customerId : Option String)
    (s : Storage) (resp : Response CaseCreateResponse) :
    Storage × List HttpRequest × Except ApiError CaseCreateResponse :=
  match resolveUserId customerId s with
  | none => authFailure CaseCreateResponse s
  | some userId =>
      let req : HttpRequest :=
        { method := "POST"
          url := apiBaseUrl ++ "/customer/" ++ userId ++ "/cases"
          headers := createHeaders s true jsonContentType }
      let out := handleResponse resp s
      (out.1, [req], out.2)

/-- Embeds `api.uploadDocument`: resolve the user id, bail out with the 401
ApiError when it is falsy, otherwise POST the form data to
`/customer/{userId}/documents` with multipart headers. -/
def uploadDocument (_file : UploadFile) (_documentType : Option String)
    (customerId : Option String) (s : Storage) (resp : Response Document) :
    Storage × List HttpRequest × Except ApiError Document :=
  match resolveUserId customerId s with
  | none => authFailure Document s
  | some userId =>
      let req : HttpRequest :=
        { method := "POST"
          url := apiBaseUrl ++ "/customer/" ++ userId ++ "/documents"
          headers := createHeaders s true multipartContentType }
      let out := handleResponse resp s
      (out.1, [req], out.2)

/-- Two consecutive `api.createCase` calls with the same case data and
caller-supplied customer id (the duplicate-submission scenario); the request
logs are concatenated in order. -/
def createCaseTwice (caseData : CaseCreateRequest) (customerId : Option String)
    (s : Storage) (resp1 resp2 : Response CaseCreateResponse) :
    Storage × List HttpRequest × Except ApiError CaseCreateResponse :=
  let first := createCase caseData customerId s resp1
  let second := createCase caseData customerId first.1 resp2
  (second.1, first.2.1 ++ second.2.1, second.2.2)

/-- The form state of the CreateCase component. -/
structure FormData where
  subject : String
  description : String
deriving DecidableEq

/-- The `submitStatus` values of CreateCase.tsx
(`'success' | 'error' | null` is modelled as `Option SubmitOutcome`). -/
inductive SubmitOutcome
  | success
  | error
deriving DecidableEq

/-- The component state `handleSubmit` leaves behind, plus the request it
sent (if any): `sentRequest = none` means `api.createCase` was never
called. -/
structure SubmitResult where
  submitStatus : Option SubmitOutcome
  formData : FormData
  sentRequest : Option CaseCreateRequest
  submitting : Bool
deriving DecidableEq

/-- Whitespace as `String.prototype.trim` strips it (the characters the
form inputs can produce). -/
def isSpaceChar (c : Char) : Bool :=
  c == ' ' || c == '\t' || c == '\n' || c == '\r'

/-- JavaScript `s.trim()`: drop leading and trailing whitespace.  (Lean's
own `String.trim` is not used because it does not reduce inside the
kernel.) -/
def jsTrim (s : String) : String :=
  String.mk (((s.data.dropWhile isSpaceChar).reverse.dropWhile isSpaceChar).reverse)

/-- The request body built in `handleSubmit`:
`subject: formData.subject.trim(), description: formData.description.trim() || undefined`. -/
def trimmedRequest (fd : FormData) : CaseCreateRequest :=
  { subject := jsTrim fd.subject
    description :=
      if jsTrim fd.description = "" then none else some (jsTrim fd.description) }

/-- Embeds `validate` of CreateCase.tsx: the only rule is that the subject
must not be empty or whitespace
(`!formData.subject || !formData.subject.trim()`). -/
def validate (fd : FormData) : Bool :=
  if jsTrim fd.subject = "" then false else true

/-- Embeds `handleSubmit` of CreateCase.tsx (lines 56-83): after validation
it awaits one `api.createCase` call — whose outcome is the `outcome`
argument — and sets `submitStatus` to success (clearing the form) or to
error (`catch`); `finally` resets `submitting`.  No retry happens in either
branch. -/
def handleSubmit (fd : FormData) (outcome : Except ApiError CaseCreateResponse) :
    SubmitResult :=
  if validate fd = false then
    { submitStatus := none, formData := fd, sentRequest := none, submitting := false }
  else
    match outcome with
    | Except.ok _ =>
        { submitStatus := some SubmitOutcome.success
          formData := { subject := "", description := "" }
          sentRequest := some (trimmedRequest fd)
          submitting := false }
    | Except.error _ =>
        { submitStatus := some SubmitOutcome.error
          formData := fd
          sentRequest := some (trimmedRequest fd)
          submitting := false }

/-- How many `api.createCase` calls a `handleSubmit` run made. -/
def apiCallCount (r : SubmitResult) : Nat :=
  match r.sentRequest with
  | some _ => 1
  | none => 0

/-- JavaScript truthiness of `doc.created_date` in the sort comparator of
Documents.tsx (`!a.created_date`): missing or empty string is falsy. -/
def dateTruthy : Option String → Bool
  | none => false
  | some d => if d = "" then false else true

/-- Embeds the comparator of `loadDocuments` in Documents.tsx (lines 35-40),
with `getTime` standing for `(s : string) => new Date(s).getTime()`:
documents without a (truthy) `created_date` sort after all others, and dated
documents compare by `getTime(b) - getTime(a)` (descending).  The catch-all
branch is unreachable: a truthy `created_date` is `some` of a non-empty
string. -/
def documentsCmp (getTime : String → Int) (a b : Document) : Int :=
  if !dateTruthy a.created_date && !dateTruthy b.created_date then 0
  else if !dateTruthy a.created_date then 1
  else if !dateTruthy b.created_date then -1
  else
    match a.created_date, b.created_date with
    | some da, some db => getTime db - getTime da
    | _, _ => 0

/-- The non-strict order induced by the comparator, `cmp(a, b) <= 0`:
a correct `Array.prototype.sort` puts `a` no later than `b` exactly when
this holds (for a consistent comparator). -/
def docLe (getTime : String → Int) (a b : Document) : Prop :=
  documentsCmp getTime a b ≤ 0

instance (getTime : String → Int) : DecidableRel (docLe getTime) :=
  fun a b => inferInstanceAs (Decidable (documentsCmp getTime a b ≤ 0))

/-- The sorted list the Documents view renders:
`(data.documents || []).sort(comparator)`, modelled by a correct comparison
sort over the comparator's non-strict order. -/
def sortDocuments (getTime : String → Int) (l : List Document) : List Document :=
  List.insertionSort (docLe getTime) l

/-- Modelled from the spec: the `operation` field of a SyncEvent
(section 3), Create or Update.  The Outbound Sync Queue itself is absent
from src/ — the repository documents it only at the architecture level — so
this and the following queue definitions follow the specification's words. -/
inductive SyncOp
  | create
  | update
deriving DecidableEq

/-- Modelled from the spec: a SyncEvent (section 3) — an intended write with
an idempotency key `eventId`, a `recordKey` (ownerId+kind+id-or-local-id),
the operation, a payload snapshot, an attempt count and an enqueue time. -/
structure SyncEvent where
  eventId : Nat
  recordKey : String
  operation : SyncOp
  payloadSnapshot : String
  attempt : Nat
  enqueuedAt : Nat
deriving DecidableEq

/-- Modelled from the spec: the observable state of the Outbound Sync Queue
(section 4.2): the pending events in enqueue order, the events currently
handed to a worker (in flight), the sequence of adapter calls as the CRM
Adapter observes them, and the history of accepted enqueues. -/
structure QueueState where
  pending : List SyncEvent
  inFlight : List SyncEvent
  adapterLog : List SyncEvent
  enqLog : List SyncEvent
deriving DecidableEq

/-- Modelled from the spec: `enqueue(SyncEvent)`, idempotent by `eventId` —
a duplicate enqueue of the same `eventId` is a no-op, otherwise the event is
appended to the per-key-ordered pending queue. -/
def enqueueEvent (s : QueueState) (e : SyncEvent) : QueueState :=
  if s.enqLog.any (fun f => f.eventId == e.eventId) then s
  else
    { s with
      pending := s.pending ++ [e]
      enqLog := s.enqLog ++ [e] }

/-- The earliest pending event with the given record key, and the queue with
it removed (the event `dequeueNext` hands to a worker for that key). -/
def extractFirst (k : String) : List SyncEvent → Option (SyncEvent × List SyncEvent)
  | [] => none
  | e :: es =>
      if e.recordKey = k then some (e, es)
      else
        match extractFirst k es with
        | some (f, rest) => some (f, e :: rest)
        | none => none

/-- The events of one record key, in order. -/
def keyEvents (k : String) (l : List SyncEvent) : List SyncEvent :=
  l.filter (fun e => e.recordKey == k)

/-- Modelled from the spec: one step of the Outbound Sync Queue under
concurrent workers (sections 4.2 and 5).  `enqueue` accepts a write;
`dispatch` lets any worker take the earliest pending event of a record key
that has no in-flight event — `dequeueNext` never hands events of the same
`recordKey` to two workers concurrently — and the adapter call begins, so
the adapter observes the event; `complete` finishes an in-flight call. -/
inductive QStep : QueueState → QueueState → Prop
  | enqueue (s : QueueState) (e : SyncEvent) : QStep s (enqueueEvent s e)
  | dispatch (s : QueueState) (k : String) (e : SyncEvent) (rest : List SyncEvent)
      (hfree : ∀ f ∈ s.inFlight, f.recordKey ≠ k)
      (hext : extractFirst k s.pending = some (e, rest)) :
      QStep s
        { pending := rest
          inFlight := s.inFlight ++ [e]
          adapterLog := s.adapterLog ++ [e]
          enqLog := s.enqLog }
  | complete (s : QueueState) (e : SyncEvent) (hmem : e ∈ s.inFlight) :
      QStep s
        { pending := s.pending
          inFlight := s.inFlight.erase e
          adapterLog := s.adapterLog
          enqLog := s.enqLog }

/-- The empty queue. -/
def initQueue : QueueState :=
  { pending := [], inFlight := [], adapterLog := [], enqLog := [] }

/-- The states an interleaving of workers and callers can produce. -/
inductive Reachable : QueueState → Prop
  | init : Reachable initQueue
  | step {s t : QueueState} : Reachable s → QStep s t → Reachable t

/-- The queue invariant of sections 3 and 5: at most one in-flight event per
record key, and per key the adapter log followed by the pending events is
exactly the enqueue history (so the adapter has observed a prefix, in
order). -/
def QInv (s : QueueState) : Prop :=
  (∀ k, (keyEvents k s.inFlight).length ≤ 1) ∧
  (∀ k, keyEvents k s.adapterLog ++ keyEvents k s.pending = keyEvents k s.enqLog)

/-- Modelled from the spec: a Record's `syncState`
(section 3: Local, Pending, Synced, Conflict, Failed). -/
inductive SyncState
  | Local
  | Pending
  | Synced
  | Conflict
  | Failed
deriving DecidableEq

/-- Modelled from the spec: a Record of the Cache Store (section 3): CRM id
(absent for not-yet-synced local records), owner, kind, opaque payload map,
the monotonic per-record `version` counter, the sync state and the two
timestamps. -/
structure Record where
  id : Option String
  ownerId : String
  kind : String
  payload : List (String × String)
  version : Nat
  syncState : SyncState
  lastSyncedAt : Option Nat
  localUpdatedAt : Option Nat
deriving DecidableEq

/-- Modelled from the spec: a RemoteRecord as `fetchChangedSince` delivers
one (section 6). -/
structure RemoteRecord where
  id : String
  ownerId : String
  kind : String
  payload : List (String × String)
  remoteVersion : Nat
  updatedAt : Nat
deriving DecidableEq

/-- A Cache Store key: (ownerId, kind, id). -/
abbrev RecordKey : Type := String × String × String

/-- Modelled from the spec: the Cache Store's record map (section 4.1). -/
def Cache : Type :=
  RecordKey → Option Record

/-- Modelled from the spec: `put(Record)` at a key (atomic per key). -/
def cachePut (c : Cache) (k : RecordKey) (r : Record) : Cache :=
  fun k' => if k' = k then some r else c k'

/-- Modelled from the spec: a local mutation through `writeRecord`
(section 4.5): the payload is replaced optimistically, the `version` counter
strictly increases, and the record becomes Pending. -/
def applyLocalWrite (r : Record) (payload : List (String × String)) (now : Nat) :
    Record :=
  { r with
    payload := payload
    version := r.version + 1
    syncState := SyncState.Pending
    localUpdatedAt := some now }

/-- The Cache Store key of a remote record. -/
def remoteKey (u : RemoteRecord) : RecordKey :=
  (u.ownerId, u.kind, u.id)

/-- Modelled from the spec: the Inbound Reconciler's merge policy
(section 4.4): a remote update against a Pending cached record is staged,
the record transitioning to Conflict; otherwise the remote record overwrites
the cache and `lastSyncedAt` is updated.  Either way the reconciled mutation
strictly increases the record's `version` counter (section 3); a key with no
cached record is filled from the remote. -/
def mergeRemote (cached : Option Record) (u : RemoteRecord) (now : Nat) : Record :=
  match cached with
  | none =>
      { id := some u.id
        ownerId := u.ownerId
        kind := u.kind
        payload := u.payload
        version := 1
        syncState := SyncState.Synced
        lastSyncedAt := some now
        localUpdatedAt := none }
  | some r =>
      if r.syncState = SyncState.Pending then
        { r with
          version := r.version + 1
          syncState := SyncState.Conflict }
      else
        { r with
          id := some u.id
          payload := u.payload
          version := r.version + 1
          syncState := SyncState.Synced
          lastSyncedAt := some now }

/-- One keyed compare-and-swap merge of the reconciler. -/
def applyRemote (c : Cache) (u : RemoteRecord) (now : Nat) : Cache :=
  cachePut c (remoteKey u) (mergeRemote (c (remoteKey u)) u now)

/-- Modelled from the spec: a reconciliation cycle merges a
`fetchChangedSince` batch into the Cache Store, record by record
(section 4.4). -/
def reconcileCycle (c : Cache) (batch : List RemoteRecord) (now : Nat) : Cache :=
  batch.foldl (fun acc u => applyRemote acc u now) c

/-- A storage with a token and a parsed user id, for concrete runs. -/
def storageAuthed : Storage :=
  { auth_token := some "tok", auth_user := some (StoredUser.parsed (some "42")) }

/-- A concrete case-creation request. -/
def caseReqDemo : CaseCreateRequest :=
  { subject := "Printer broken", description := none }

/-- A concrete successful createCase response. -/
def respCreated : Response CaseCreateResponse :=
  { ok := true
    status := 201
    statusText := "Created"
    errJson := Except.error ()
    body := { case_id := "500123", message := "Case created", status := "submitted" } }

/-- A concrete failed createCase response (HTTP 500). -/
def respCase500 : Response CaseCreateResponse :=
  { ok := false
    status := 500
    statusText := "Internal Server Error"
    errJson := Except.error ()
    body := { case_id := "", message := "", status := "" } }

/-- A concrete 404 documents response whose error body carries a detail. -/
def respDocs404 : Response DocumentListResponse :=
  { ok := false
    status := 404
    statusText := "Not Found"
    errJson := Except.ok { detail := some "Document not found" }
    body := { documents := [] } }

/-- A concrete failed documents response (HTTP 500, unparseable body). -/
def respDocs500 : Response DocumentListResponse :=
  { ok := false
    status := 500
    statusText := "Internal Server Error"
    errJson := Except.error ()
    body := { documents := [] } }

/-- A concrete 401 documents response. -/
def respDocs401 : Response DocumentListResponse :=
  { ok := false
    status := 401
    statusText := "Unauthorized"
    errJson := Except.ok { detail := some "Invalid token" }
    body := { documents := [] } }

/-- A concrete ok documents response. -/
def respDocsOk : Response DocumentListResponse :=
  { ok := true
    status := 200
    statusText := "OK"
    errJson := Except.error ()
    body := { documents := [] } }

/-- A concrete ok cases response. -/
def respCasesOk : Response CaseListResponse :=
  { ok := true
    status := 200
    statusText := "OK"
    errJson := Except.error ()
    body := { cases := [] } }

/-- A concrete ok upload response. -/
def respUploadOk : Response Document :=
  { ok := true
    status := 200
    statusText := "OK"
    errJson := Except.error ()
    body :=
      { document_id := "d1"
        customer_id := "42"
        name := "a.pdf"
        type := "PDF"
        download_url := "/files/d1"
        created_date := none } }

/-- A first sync event on record key o1. -/
def evA : SyncEvent :=
  { eventId := 1
    recordKey := "o1"
    operation := SyncOp.create
    payloadSnapshot := "p1"
    attempt := 0
    enqueuedAt := 0 }

/-- A second sync event on the same record key o1. -/
def evB : SyncEvent :=
  { eventId := 2
    recordKey := "o1"
    operation := SyncOp.update
    payloadSnapshot := "p2"
    attempt := 0
    enqueuedAt := 1 }

/-- The queue after enqueuing evA. -/
def qs1 : QueueState :=
  enqueueEvent initQueue evA

/-- The queue after enqueuing evA and evB. -/
def qs2 : QueueState :=
  enqueueEvent qs1 evB

/-- The queue after a worker dispatched evA (evB still pending, evA in
flight and observed by the adapter). -/
def qs3 : QueueState :=
  { pending := [evB], inFlight := [evA], adapterLog := [evA], enqLog := [evA, evB] }

/-- A concrete cached record for the reconciliation witness. -/
def recDemo : Record :=
  { id := some "500123"
    ownerId := "o1"
    kind := "case"
    payload := [("subject", "Printer broken")]
    version := 3
    syncState := SyncState.Synced
    lastSyncedAt := some 10
    localUpdatedAt := some 9 }

/-- A concrete cache holding recDemo at its key. -/
def cacheDemo : Cache :=
  fun k => if k = ("o1", "case", "500123") then some recDemo else none

/-- A concrete remote update for recDemo's key. -/
def remoteDemo : RemoteRecord :=
  { id := "500123"
    ownerId := "o1"
    kind := "case"
    payload := [("subject", "Printer broken"), ("status", "closed")]
    remoteVersion := 7
    updatedAt := 20 }

lemma resolveUserId_none (s : Storage) (h : getUserId s = none) :
    resolveUserId none s = none := by
  simp [resolveUserId, h]

lemma resolveUserId_arg (uid : String) (s : Storage) (h : uid ≠ "") :
    resolveUserId (some uid) s = some uid := by
  simp [resolveUserId, h]

lemma getDocuments_authed (cid : Option String) (uid : String) (s : Storage)
    (resp : Response DocumentListResponse) (hauth : resolveUserId cid s = some uid) :
    getDocuments cid s resp =
      ((handleResponse resp s).1,
       [{ method := "GET"
          url := apiBaseUrl ++ "/customer/" ++ uid ++ "/documents"
          headers := createHeaders s true jsonContentType }],
       (handleResponse resp s).2) := by
  simp [getDocuments, hauth]

lemma createCase_authed (c : CaseCreateRequest) (cid : Option String) (uid : String)
    (s : Storage) (resp : Response CaseCreateResponse)
    (hauth : resolveUserId cid s = some uid) :
    createCase c cid s resp =
      ((handleResponse resp s).1,
       [{ method := "POST"
          url := apiBaseUrl ++ "/customer/" ++ uid ++ "/cases"
          headers := createHeaders s true jsonContentType }],
       (handleResponse resp s).2) := by
  simp [createCase, hauth]

lemma handleResponse_failure {T : Type} (resp : Response T) (s : Storage)
    (h : resp.ok = false) :
    handleResponse resp s =
      ((if resp.status = 401 then clearAuth s else s),
       Except.error
         { message := errorMessage resp.statusText resp.errJson
           status := resp.status }) := by
  simp [handleResponse, h]

/-- C8: with no customerId argument and no authenticated user id in stored
auth state, each public api method clears the stored token and user,
performs no fetch, and throws ApiError with message `User not authenticated`
and status 401. -/
theorem api_unauthenticated_guard (s : Storage) (h : getUserId s = none)
    (respD : Response DocumentListResponse) (respC : Response CaseListResponse)
    (c : CaseCreateRequest) (respCC : Response CaseCreateResponse)
    (f : UploadFile) (dt : Option String) (respU : Response Document) :
    getDocuments none s respD =
      (clearAuth s, [],
       Except.error { message := "User not authenticated", status := 401 }) ∧
    getCases none s respC =
      (clearAuth s, [],
       Except.error { message := "User not authenticated", status := 401 }) ∧
    createCase c none s respCC =
      (clearAuth s, [],
       Except.error { message := "User not authenticated", status := 401 }) ∧
    uploadDocument f dt none s respU =
      (clearAuth s, [],
       Except.error { message := "User not authenticated", status := 401 }) := by
  have hr : resolveUserId none s = none := resolveUserId_none s h
  refine ⟨?_, ?_, ?_, ?_⟩ <;>
    simp [getDocuments, getCases, createCase, uploadDocument, hr, authFailure]

/-- Witness for C8 at the empty storage. -/
theorem api_unauthenticated_guard_witness :
    getUserId { auth_token := none, auth_user := none } = none ∧
    getDocuments none { auth_token := none, auth_user := none } respDocsOk =
      ({ auth_token := none, auth_user := none }, [],
       Except.error { message := "User not authenticated", status := 401 }) := by
  refine ⟨rfl, ?_⟩
  exact (api_unauthenticated_guard { auth_token := none, auth_user := none } rfl
    respDocsOk respCasesOk caseReqDemo respCreated
    { name := "a.pdf", type := "PDF" } none respUploadOk).1

/-- C9: on every non-ok response, handleResponse throws an ApiError whose
status equals the response's HTTP status, and the stored credentials are
removed exactly when that status is 401 (any other status leaves storage
unchanged). -/
theorem handleResponse_non_ok_status_and_storage {T : Type} (resp : Response T)
    (s : Storage) (h : resp.ok = false) :
    (∃ e : ApiError,
      (handleResponse resp s).2 = Except.error e ∧ e.status = resp.status) ∧
    (handleResponse resp s).1 = (if resp.status = 401 then clearAuth s else s) := by
  rw [handleResponse_failure resp s h]
  exact ⟨⟨_, rfl, rfl⟩, rfl⟩

/-- Witness for C9 at a concrete 401 response. -/
theorem handleResponse_non_ok_witness :
    (∃ e : ApiError,
      (handleResponse respDocs401 storageAuthed).2 = Except.error e ∧
      e.status = respDocs401.status) ∧
    (handleResponse respDocs401 storageAuthed).1 =
      (if respDocs401.status = 401 then clearAuth storageAuthed else storageAuthed) :=
  handleResponse_non_ok_status_and_storage respDocs401 storageAuthed rfl

/-- C5 counterexample: a read whose target is absent remotely (HTTP 404)
does not produce a NotFound value — the client throws the ApiError built by
handleResponse.  The result of getDocuments at a concrete 404 response is
`Except.error`, i.e. a raised error, not a valid outcome value. -/
theorem notFound_is_thrown :
    (getDocuments none storageAuthed respDocs404).2.2 =
      Except.error { message := "Document not found", status := 404 } := by
  rfl

/-- C5 amended: a 404 on a read is an error: getDocuments throws an ApiError
with status 404 to the caller (storage is untouched, 404 being distinct from
401); the client has no NotFound value and no cache-miss path. -/
theorem read_404_throws (cid : Option String) (uid : String) (s : Storage)
    (resp : Response DocumentListResponse)
    (hauth : resolveUserId cid s = some uid)
    (hok : resp.ok = false) (hst : resp.status = 404) :
    (∃ e : ApiError,
      (getDocuments cid s resp).2.2 = Except.error e ∧ e.status = 404) ∧
    (getDocuments cid s resp).1 = s := by
  rw [getDocuments_authed cid uid s resp hauth, handleResponse_failure resp s hok, hst]
  exact ⟨⟨_, rfl, rfl⟩, rfl⟩

/-- Witness for the amended C5 at a concrete 404 response. -/
theorem read_404_throws_witness :
    (∃ e : ApiError,
      (getDocuments none storageAuthed respDocs404).2.2 = Except.error e ∧
      e.status = 404) ∧
    (getDocuments none storageAuthed respDocs404).1 = storageAuthed :=
  read_404_throws none "42" storageAuthed respDocs404 rfl rfl rfl

/-- C6 counterexample: on adapter failure (a concrete HTTP 500), the read
does not return NotFound — getDocuments propagates the error to the caller
as a thrown ApiError. -/
theorem getDocuments_propagates_failure :
    (getDocuments none storageAuthed respDocs500).2.2 =
      Except.error { message := "Internal Server Error", status := 500 } := by
  rfl

/-- C6 amended: a read of absent data is a single unbounded fetch with no
cache: getDocuments issues exactly one request, and on any failing response
it throws an ApiError carrying that response's status rather than returning
a NotFound value. -/
theorem getDocuments_single_fetch_throws (cid : Option String) (uid : String)
    (s : Storage) (resp : Response DocumentListResponse)
    (hauth : resolveUserId cid s = some uid) (hok : resp.ok = false) :
    ((getDocuments cid s resp).2.1).length = 1 ∧
    (∃ e : ApiError,
      (getDocuments cid s resp).2.2 = Except.error e ∧ e.status = resp.status) := by
  rw [getDocuments_authed cid uid s resp hauth, handleResponse_failure resp s hok]
  exact ⟨rfl, ⟨_, rfl, rfl⟩⟩

/-- Witness for the amended C6 at a concrete 500 response. -/
theorem getDocuments_single_fetch_throws_witness :
    ((getDocuments none storageAuthed respDocs500).2.1).length = 1 ∧
    (∃ e : ApiError,
      (getDocuments none storageAuthed respDocs500).2.2 = Except.error e ∧
      e.status = respDocs500.status) :=
  getDocuments_single_fetch_throws none "42" storageAuthed respDocs500 rfl rfl

/-- C1 counterexample: the case-creation operation does not return a pending
record shielded from remote failure — at a concrete failing response the
completed createCase call throws the remote error back to the caller. -/
theorem createCase_throws_on_remote_failure :
    (createCase caseReqDemo (some "42") storageAuthed respCase500).2.2 =
      Except.error { message := "Internal Server Error", status := 500 } := by
  rfl

/-- C1 amended: createCase awaits the backend round trip synchronously: it
issues exactly one POST, on an ok response it returns the server's parsed
CaseCreateResponse body, and on a failing response it throws an ApiError
with that response's status to the caller; there is no local cache write, no
SyncEvent queue, and no Pending sync state. -/
theorem createCase_awaits_remote_roundtrip (c : CaseCreateRequest)
    (cid : Option String) (uid : String) (s : Storage)
    (resp : Response CaseCreateResponse) (hauth : resolveUserId cid s = some uid) :
    ((createCase c cid s resp).2.1).length = 1 ∧
    (resp.ok = true → (createCase c cid s resp).2.2 = Except.ok resp.body) ∧
    (resp.ok = false →
      ∃ e : ApiError,
        (createCase c cid s resp).2.2 = Except.error e ∧ e.status = resp.status) := by
  rw [createCase_authed c cid uid s resp hauth]
  refine ⟨rfl, ?_, ?_⟩
  · intro hok
    simp [handleResponse, hok]
  · intro hok
    rw [handleResponse_failure resp s hok]
    exact ⟨_, rfl, rfl⟩

/-- Witness for the amended C1 at a concrete successful response. -/
theorem createCase_awaits_remote_roundtrip_witness :
    ((createCase caseReqDemo (some "42") storageAuthed respCreated).2.1).length = 1 ∧
    (respCreated.ok = true →
      (createCase caseReqDemo (some "42") storageAuthed respCreated).2.2 =
        Except.ok respCreated.body) ∧
    (respCreated.ok = false →
      ∃ e : ApiError,
        (createCase caseReqDemo (some "42") storageAuthed respCreated).2.2 =
          Except.error e ∧ e.status = respCreated.status) :=
  createCase_awaits_remote_roundtrip caseReqDemo (some "42") "42" storageAuthed
    respCreated (resolveUserId_arg "42" storageAuthed (by decide))

/-- C3 counterexample: submitting the same write request twice is not
idempotent — the two identical createCase calls at concrete inputs issue two
adapter (fetch) calls, not one.  `CaseCreateRequest` carries no eventId at
all. -/
theorem duplicate_createCase_two_adapter_calls :
    ((createCaseTwice caseReqDemo (some "42") storageAuthed respCreated
        respCreated).2.1).length = 2 ∧
    ((createCaseTwice caseReqDemo (some "42") storageAuthed respCreated
        respCreated).2.1).length ≠ 1 := by
  exact ⟨rfl, by decide⟩

/-- C3 amended: the write path has no idempotency key (CaseCreateRequest
holds only subject and description), and createCase is not deduplicated:
every identical resubmission issues its own POST, so two submissions produce
exactly two adapter calls. -/
theorem createCase_not_idempotent (c : CaseCreateRequest) (uid : String)
    (s : Storage) (r1 r2 : Response CaseCreateResponse) (h : uid ≠ "") :
    ((createCaseTwice c (some uid) s r1 r2).2.1).length = 2 ∧
    ∀ req ∈ (createCaseTwice c (some uid) s r1 r2).2.1, req.method = "POST" := by
  have h1 := createCase_authed c (some uid) uid s r1 (resolveUserId_arg uid s h)
  have h2 := createCase_authed c (some uid) uid
    (handleResponse r1 s).1 r2 (resolveUserId_arg uid (handleResponse r1 s).1 h)
  constructor
  · simp [createCaseTwice, h1, h2]
  · intro req hreq
    simp [createCaseTwice, h1, h2] at hreq
    rcases hreq with hreq | hreq <;> rw [hreq]

/-- Witness for the amended C3 at concrete inputs. -/
theorem createCase_not_idempotent_witness :
    ((createCaseTwice caseReqDemo (some "42") storageAuthed respCreated
        respCreated).2.1).length = 2 ∧
    ∀ req ∈ (createCaseTwice caseReqDemo (some "42") storageAuthed respCreated
        respCreated).2.1, req.method = "POST" :=
  createCase_not_idempotent caseReqDemo "42" storageAuthed respCreated respCreated
    (by decide)

/-- C7 counterexample: with the adapter failing (a concrete transient-style
error outcome), the submitted case makes exactly one attempt — not the
claimed five — and the component merely sets its error status; nothing is
retried or dead-lettered. -/
theorem submit_single_attempt :
    handleSubmit { subject := "Hilfe", description := "" }
        (Except.error { message := "Service Unavailable", status := 503 }) =
      { submitStatus := some SubmitOutcome.error
        formData := { subject := "Hilfe", description := "" }
        sentRequest := some { subject := "Hilfe", description := none }
        submitting := false } ∧
    apiCallCount (handleSubmit { subject := "Hilfe", description := "" }
        (Except.error { message := "Service Unavailable", status := 503 })) ≠ 5 := by
  exact ⟨by decide, by decide⟩

/-- C7 amended: on adapter failure the case-creation submit makes exactly
one attempt: api.createCase is called once, the error is caught, and
submitStatus becomes error immediately; there is no retry, no backoff and no
Failed/dead-letter retention. -/
theorem handleSubmit_one_attempt_error (fd : FormData) (e : ApiError)
    (h : validate fd = true) :
    handleSubmit fd (Except.error e) =
      { submitStatus := some SubmitOutcome.error
        formData := fd
        sentRequest := some (trimmedRequest fd)
        submitting := false } ∧
    apiCallCount (handleSubmit fd (Except.error e)) = 1 := by
  have hs : handleSubmit fd (Except.error e) =
      { submitStatus := some SubmitOutcome.error
        formData := fd
        sentRequest := some (trimmedRequest fd)
        submitting := false } := by
    simp [handleSubmit, h]
  exact ⟨hs, by rw [hs]; rfl⟩

/-- Witness for the amended C7 at a concrete failing submission. -/
theorem handleSubmit_one_attempt_error_witness :
    handleSubmit { subject := "Frage", description := "Details" }
        (Except.error { message := "Bad Gateway", status := 502 }) =
      { submitStatus := some SubmitOutcome.error
        formData := { subject := "Frage", description := "Details" }
        sentRequest := some (trimmedRequest { subject := "Frage", description := "Details" })
        submitting := false } ∧
    apiCallCount (handleSubmit { subject := "Frage", description := "Details" }
        (Except.error { message := "Bad Gateway", status := 502 })) = 1 :=
  handleSubmit_one_attempt_error { subject := "Frage", description := "Details" }
    { message := "Bad Gateway", status := 502 } (by decide)

lemma dateTruthy_true {d : Option String} (h : dateTruthy d = true) :
    ∃ s, d = some s := by
  cases d with
  | none => simp [dateTruthy] at h
  | some s => exact ⟨s, rfl⟩

lemma documentsCmp_falsy_both {getTime : String → Int} {a b : Document}
    (ha : dateTruthy a.created_date = false) (hb : dateTruthy b.created_date = false) :
    documentsCmp getTime a b = 0 := by
  simp [documentsCmp, ha, hb]

lemma documentsCmp_falsy_left {getTime : String → Int} {a b : Document}
    (ha : dateTruthy a.created_date = false) (hb : dateTruthy b.created_date = true) :
    documentsCmp getTime a b = 1 := by
  simp [documentsCmp, ha, hb]

lemma documentsCmp_falsy_right {getTime : String → Int} {a b : Document}
    (ha : dateTruthy a.created_date = true) (hb : dateTruthy b.created_date = false) :
    documentsCmp getTime a b = -1 := by
  simp [documentsCmp, ha, hb]

lemma documentsCmp_truthy {getTime : String → Int} {a b : Document} {da db : String}
    (hda : a.created_date = some da) (hdb : b.created_date = some db)
    (ha : dateTruthy a.created_date = true) (hb : dateTruthy b.created_date = true) :
    documentsCmp getTime a b = getTime db - getTime da := by
  rw [hda] at ha
  rw [hdb] at hb
  simp [documentsCmp, hda, hdb, ha, hb]

lemma docLe_total (getTime : String → Int) (a b : Document) :
    docLe getTime a b ∨ docLe getTime b a := by
  unfold docLe
  cases ha : dateTruthy a.created_date with
  | false =>
      cases hb : dateTruthy b.created_date with
      | false => left; rw [documentsCmp_falsy_both ha hb]
      | true => right; rw [documentsCmp_falsy_right hb ha]; omega
  | true =>
      cases hb : dateTruthy b.created_date with
      | false => left; rw [documentsCmp_falsy_right ha hb]; omega
      | true =>
          obtain ⟨da, hda⟩ := dateTruthy_true ha
          obtain ⟨db, hdb⟩ := dateTruthy_true hb
          rw [documentsCmp_truthy hda hdb ha hb, documentsCmp_truthy hdb hda hb ha]
          omega

lemma docLe_trans (getTime : String → Int) (a b c : Document)
    (hab : docLe getTime a b) (hbc : docLe getTime b c) : docLe getTime a c := by
  unfold docLe at hab hbc ⊢
  cases ha : dateTruthy a.created_date with
  | false =>
      cases hb : dateTruthy b.created_date with
      | true => rw [documentsCmp_falsy_left ha hb] at hab; omega
      | false =>
          cases hc : dateTruthy c.created_date with
          | true => rw [documentsCmp_falsy_left hb hc] at hbc; omega
          | false => rw [documentsCmp_falsy_both ha hc]
  | true =>
      cases hc : dateTruthy c.created_date with
      | false => rw [documentsCmp_falsy_right ha hc]; omega
      | true =>
          cases hb : dateTruthy b.created_date with
          | false => rw [documentsCmp_falsy_left hb hc] at hbc; omega
          | true =>
              obtain ⟨da, hda⟩ := dateTruthy_true ha
              obtain ⟨db, hdb⟩ := dateTruthy_true hb
              obtain ⟨dc, hdc⟩ := dateTruthy_true hc
              rw [documentsCmp_truthy hda hdb ha hb] at hab
              rw [documentsCmp_truthy hdb hdc hb hc] at hbc
              rw [documentsCmp_truthy hda hdc ha hc]
              omega

lemma docLe_display {getTime : String → Int} {a b : Document}
    (h : docLe getTime a b) :
    (dateTruthy a.created_date = false → dateTruthy b.created_date = false) ∧
    (∀ da db, a.created_date = some da → b.created_date = some db →
      dateTruthy a.created_date = true → dateTruthy b.created_date = true →
      getTime db ≤ getTime da) := by
  unfold docLe at h
  constructor
  · intro ha
    cases hb : dateTruthy b.created_date with
    | false => rfl
    | true => rw [documentsCmp_falsy_left ha hb] at h; omega
  · intro da db hda hdb ha hb
    rw [documentsCmp_truthy hda hdb ha hb] at h
    omega

/-- C10: the Documents view renders the sorted copy of the fetched list: a
permutation of it in which any document whose `created_date` is falsy
(absent, or the empty string, which the comparator treats as absent) comes
after every dated document, and the dated documents appear newest first —
non-increasing in the parsed date value `getTime`. -/
theorem documents_sorted_newest_first (getTime : String → Int) (l : List Document) :
    List.Perm (sortDocuments getTime l) l ∧
    List.Pairwise
      (fun a b =>
        (dateTruthy a.created_date = false → dateTruthy b.created_date = false) ∧
        (∀ da db, a.created_date = some da → b.created_date = some db →
          dateTruthy a.created_date = true → dateTruthy b.created_date = true →
          getTime db ≤ getTime da))
      (sortDocuments getTime l) := by
  constructor
  · exact List.perm_insertionSort (docLe getTime) l
  · have hs : List.Sorted (docLe getTime) (sortDocuments getTime l) := by
      haveI : IsTotal Document (docLe getTime) := ⟨docLe_total getTime⟩
      haveI : IsTrans Document (docLe getTime) := ⟨docLe_trans getTime⟩
      exact List.sorted_insertionSort (docLe getTime) l
    exact List.Pairwise.imp (fun h => docLe_display h) hs

lemma keyEvents_append (k : String) (l1 l2 : List SyncEvent) :
    keyEvents k (l1 ++ l2) = keyEvents k l1 ++ keyEvents k l2 := by
  simp [keyEvents]

lemma keyEvents_singleton_self (k : String) (e : SyncEvent) (h : e.recordKey = k) :
    keyEvents k [e] = [e] := by
  simp [keyEvents, h]

lemma keyEvents_singleton_other (k : String) (e : SyncEvent) (h : e.recordKey ≠ k) :
    keyEvents k [e] = [] := by
  simp [keyEvents, h]

lemma keyEvents_nil_of_free (k : String) (l : List SyncEvent)
    (h : ∀ f ∈ l, f.recordKey ≠ k) : keyEvents k l = [] := by
  simp only [keyEvents, List.filter_eq_nil_iff]
  intro f hf
  simp [h f hf]

lemma extractFirst_spec (k : String) :
    ∀ (l : List SyncEvent) (e : SyncEvent) (rest : List SyncEvent),
      extractFirst k l = some (e, rest) →
      e.recordKey = k ∧
      keyEvents k l = e :: keyEvents k rest ∧
      ∀ k', k' ≠ k → keyEvents k' l = keyEvents k' rest
  | [], e, rest => by simp [extractFirst]
  | f :: fs, e, rest => by
      by_cases hf : f.recordKey = k
      · simp only [extractFirst, if_pos hf, Option.some.injEq, Prod.mk.injEq]
        rintro ⟨he, hrest⟩
        subst he
        subst hrest
        refine ⟨hf, ?_, ?_⟩
        · simp [keyEvents, hf]
        · intro k' hk'
          have hne : ¬ f.recordKey = k' := by rw [hf]; exact Ne.symm hk'
          simp [keyEvents, List.filter_cons, hne]
      · simp only [extractFirst, if_neg hf]
        cases hx : extractFirst k fs with
        | none => simp
        | some p =>
            obtain ⟨f', rest'⟩ := p
            simp only [Option.some.injEq, Prod.mk.injEq]
            rintro ⟨he, hrest⟩
            subst he
            subst hrest
            obtain ⟨hkey, hfs, hother⟩ := extractFirst_spec k fs f' rest' hx
            refine ⟨hkey, ?_, ?_⟩
            · rw [show (f :: fs : List SyncEvent) = [f] ++ fs from rfl,
                keyEvents_append, keyEvents_singleton_other k f hf, hfs]
              rw [show (f :: rest' : List SyncEvent) = [f] ++ rest' from rfl,
                keyEvents_append, keyEvents_singleton_other k f hf]
              rfl
            · intro k' hk'
              rw [show (f :: fs : List SyncEvent) = [f] ++ fs from rfl,
                keyEvents_append, hother k' hk',
                show (f :: rest' : List SyncEvent) = [f] ++ rest' from rfl,
                keyEvents_append]

lemma qinv_mk {s : QueueState}
    (h1 : ∀ k, (keyEvents k s.inFlight).length ≤ 1)
    (h2 : ∀ k, keyEvents k s.adapterLog ++ keyEvents k s.pending = keyEvents k s.enqLog) :
    QInv s :=
  ⟨h1, h2⟩

lemma qstep_inv {s t : QueueState} (h : QStep s t) (hs : QInv s) : QInv t := by
  obtain ⟨h1, h2⟩ := hs
  cases h with
  | enqueue e =>
      unfold enqueueEvent
      split
      · exact ⟨h1, h2⟩
      · refine qinv_mk (fun k => h1 k) (fun k => ?_)
        show keyEvents k s.adapterLog ++ keyEvents k (s.pending ++ [e]) =
          keyEvents k (s.enqLog ++ [e])
        rw [keyEvents_append, keyEvents_append, ← List.append_assoc, h2 k]
  | dispatch k e rest hfree hext =>
      obtain ⟨hkey, hsplit, hother⟩ := extractFirst_spec k s.pending e rest hext
      refine qinv_mk (fun k' => ?_) (fun k' => ?_)
      · show (keyEvents k' (s.inFlight ++ [e])).length ≤ 1
        by_cases hk : k' = k
        · subst hk
          rw [keyEvents_append, keyEvents_nil_of_free k' s.inFlight hfree,
            keyEvents_singleton_self k' e hkey]
          simp
        · rw [keyEvents_append,
            keyEvents_singleton_other k' e (by rw [hkey]; exact Ne.symm hk)]
          simpa using h1 k'
      · show keyEvents k' (s.adapterLog ++ [e]) ++ keyEvents k' rest =
          keyEvents k' s.enqLog
        by_cases hk : k' = k
        · subst hk
          rw [keyEvents_append, keyEvents_singleton_self k' e hkey,
            List.append_assoc]
          simp only [List.singleton_append]
          rw [← hsplit, h2 k']
        · rw [keyEvents_append,
            keyEvents_singleton_other k' e (by rw [hkey]; exact Ne.symm hk)]
          rw [← hother k' hk]
          simpa using h2 k'
  | complete e hmem =>
      refine qinv_mk (fun k => ?_) (fun k => h2 k)
      show (keyEvents k (s.inFlight.erase e)).length ≤ 1
      have hsub : (s.inFlight.erase e).Sublist s.inFlight :=
        List.erase_sublist e s.inFlight
      have hfs : (keyEvents k (s.inFlight.erase e)).Sublist (keyEvents k s.inFlight) :=
        List.Sublist.filter _ hsub
      exact le_trans hfs.length_le (h1 k)

lemma reachable_inv {s : QueueState} (h : Reachable s) : QInv s := by
  induction h with
  | init =>
      constructor
      · intro k; simp [initQueue, keyEvents]
      · intro k; simp [initQueue, keyEvents]
  | step _ hstep ih => exact qstep_inv hstep ih

/-- C2 (modelled from the spec; the Outbound Sync Queue is absent from
src/): in every state an interleaving of enqueues, worker dispatches and
completions can reach, at most one SyncEvent per recordKey is in flight,
and per recordKey the adapter-observed call sequence is a prefix of the
enqueue order — writes to the same record key are observed in the order
they were enqueued. -/
theorem outboundQueue_per_key_ordering (s : QueueState) (h : Reachable s) :
    (∀ k, (keyEvents k s.inFlight).length ≤ 1) ∧
    (∀ k, ∃ later, keyEvents k s.adapterLog ++ later = keyEvents k s.enqLog) := by
  have hinv := reachable_inv h
  exact ⟨hinv.1, fun k => ⟨keyEvents k s.pending, hinv.2 k⟩⟩

/-- Witness for C2: a concrete reachable state (two writes to key o1
enqueued, the first dispatched). -/
theorem outboundQueue_per_key_ordering_witness :
    (keyEvents "o1" qs3.inFlight).length ≤ 1 ∧
    (∃ later, keyEvents "o1" qs3.adapterLog ++ later = keyEvents "o1" qs3.enqLog) := by
  have h01 : QStep initQueue qs1 := QStep.enqueue initQueue evA
  have h12 : QStep qs1 qs2 := QStep.enqueue qs1 evB
  have h23 : QStep qs2 qs3 :=
    QStep.dispatch qs2 "o1" evA [evB] (by decide) (by decide)
  have hre : Reachable qs3 :=
    Reachable.step (Reachable.step (Reachable.step Reachable.init h01) h12) h23
  exact ⟨(outboundQueue_per_key_ordering qs3 hre).1 "o1",
    (outboundQueue_per_key_ordering qs3 hre).2 "o1"⟩

lemma mergeRemote_version (r : Record) (u : RemoteRecord) (now : Nat) :
    (mergeRemote (some r) u now).version = r.version + 1 := by
  by_cases h : r.syncState = SyncState.Pending <;> simp [mergeRemote, h]

lemma applyRemote_version_mono (c : Cache) (u : RemoteRecord) (now : Nat)
    (k : RecordKey) (r : Record) (h : c k = some r) :
    ∃ r', applyRemote c u now k = some r' ∧ r.version ≤ r'.version := by
  unfold applyRemote cachePut
  by_cases hk : k = remoteKey u
  · refine ⟨mergeRemote (some r) u now, ?_, ?_⟩
    · rw [if_pos hk, ← hk, h]
    · rw [mergeRemote_version]
      omega
  · exact ⟨r, by rw [if_neg hk]; exact h, le_refl _⟩

lemma reconcile_version_mono (now : Nat) (batch : List RemoteRecord) :
    ∀ (c : Cache) (k : RecordKey) (r : Record), c k = some r →
      ∃ r', reconcileCycle c batch now k = some r' ∧ r.version ≤ r'.version := by
  induction batch with
  | nil => exact fun c k r h => ⟨r, h, le_refl _⟩
  | cons u us ih =>
      intro c k r h
      obtain ⟨r1, h1, le1⟩ := applyRemote_version_mono c u now k r h
      obtain ⟨r2, h2, le2⟩ := ih (applyRemote c u now) k r1 h1
      exact ⟨r2, h2, le_trans le1 le2⟩

/-- C4 (modelled from the spec; the Cache Store and Inbound Reconciler are
absent from src/): a local write and a reconciled merge each strictly
increase the record's version counter, and after a reconciliation cycle
every record cached before the cycle is still cached with a version at
least as large — versions never regress. -/
theorem version_monotone (r : Record) (p : List (String × String)) (now : Nat)
    (u : RemoteRecord) (c : Cache) (batch : List RemoteRecord) (k : RecordKey)
    (rOld : Record) (h : c k = some rOld) :
    r.version < (applyLocalWrite r p now).version ∧
    r.version < (mergeRemote (some r) u now).version ∧
    ∃ rNew, reconcileCycle c batch now k = some rNew ∧ rOld.version ≤ rNew.version := by
  refine ⟨?_, ?_, reconcile_version_mono now batch c k rOld h⟩
  · simp [applyLocalWrite]
  · rw [mergeRemote_version]
    omega

/-- Witness for C4 at a concrete cache, record and one-element remote
batch. -/
theorem version_monotone_witness :
    cacheDemo ("o1", "case", "500123") = some recDemo ∧
    (recDemo.version < (applyLocalWrite recDemo [] 20).version ∧
     recDemo.version < (mergeRemote (some recDemo) remoteDemo 20).version ∧
     ∃ rNew, reconcileCycle cacheDemo [remoteDemo] 20 ("o1", "case", "500123") =
       some rNew ∧ recDemo.version ≤ rNew.version) := by
  have h : cacheDemo ("o1", "case", "500123") = some recDemo := by decide
  exact ⟨h, version_monotone recDemo [] 20 remoteDemo cacheDemo [remoteDemo]
    ("o1", "case", "500123") recDemo h⟩

end CustomerPortal
